import Mathlib

/-!
Verification of the human-history timeline core against its specification.

The embedding follows `src/src/script.ts` and the sibling variant
`src/unnamed/part_000`. JavaScript numbers are modelled as exact rationals
(`ℚ`); `Math.floor` is `Int.floor`. All quantities appearing in the calendar
conversion are dyadic/decimal rationals of modest size, for which the exact
rational semantics and the IEEE-double semantics of the source agree.
Where the tooltip computation can produce `NaN`, a small `JSNum` type models
the relevant non-finite arithmetic explicitly.
-/

/-- The `DateType` record from src/src/script.ts lines 3–7: `{year, month, day}`, all integers. -/
structure DateType where
  year : ℤ
  month : ℤ
  day : ℤ
  deriving DecidableEq, Repr

/-- The fixed month-abbreviation table from `formatDate` (src/src/script.ts line 77). -/
def monthNames : List String :=
  ["Jan", "Feb", "Mar", "Apr", "May", "Jun", "Jul", "Aug", "Sep", "Oct", "Nov", "Dec"]

/-- Function `dateToNumber` from src/src/script.ts lines 28–44: Julian Day Number of a
calendar date, with the month ≤ 2 year/month shift and the Gregorian correction
term `B`, which is fixed at zero for negative (shifted) years. -/
def dateToNumber (date : DateType) : ℚ :=
  let y : ℤ := if date.month ≤ 2 then date.year - 1 else date.year
  let m : ℤ := if date.month ≤ 2 then date.month + 12 else date.month
  let A : ℤ := ⌊(y : ℚ) / 100⌋
  let B : ℤ := if y < 0 then 0 else 2 - A + ⌊(A : ℚ) / 4⌋
  ((⌊(365.25 : ℚ) * ((y : ℚ) + 4716)⌋ : ℤ) : ℚ) +
    ((⌊(30.6001 : ℚ) * ((m : ℚ) + 1)⌋ : ℤ) : ℚ) +
    (date.day : ℚ) + (B : ℚ) - 1524.5

/-- Intermediate `Z` of `numberToDate` (src/src/script.ts lines 47–48). -/
def ntdZ (jd : ℚ) : ℤ := ⌊jd + 0.5⌋

/-- Intermediate `F` of `numberToDate` (line 49): fractional residual of `jd + 0.5`. -/
def ntdF (jd : ℚ) : ℚ := jd + 0.5 - (ntdZ jd : ℚ)

/-- Intermediate `A` of `numberToDate` (lines 50–57): below the Gregorian
threshold 2299161 the Julian path `A = Z` is taken, otherwise the Gregorian
`alpha` correction path. -/
def ntdA (jd : ℚ) : ℤ :=
  if ntdZ jd < 2299161 then ntdZ jd
  else
    let alpha : ℤ := ⌊((ntdZ jd : ℚ) - 1867216.25) / 36524.25⌋
    ntdZ jd + 1 + alpha - ⌊(alpha : ℚ) / 4⌋

/-- Intermediate `B` of `numberToDate` (line 59). -/
def ntdB (jd : ℚ) : ℤ := ntdA jd + 1524

/-- Intermediate `C` of `numberToDate` (line 60). -/
def ntdC (jd : ℚ) : ℤ := ⌊((ntdB jd : ℚ) - 122.1) / 365.25⌋

/-- Intermediate `D` of `numberToDate` (line 61). -/
def ntdD (jd : ℚ) : ℤ := ⌊(365.25 : ℚ) * (ntdC jd : ℚ)⌋

/-- Intermediate `E` of `numberToDate` (line 62). -/
def ntdE (jd : ℚ) : ℤ := ⌊((ntdB jd : ℚ) - (ntdD jd : ℚ)) / 30.6001⌋

/-- The `day` value of `numberToDate` before the final floor (line 64). -/
def ntdDay (jd : ℚ) : ℚ :=
  (ntdB jd : ℚ) - (ntdD jd : ℚ) - ((⌊(30.6001 : ℚ) * (ntdE jd : ℚ)⌋ : ℤ) : ℚ) + ntdF jd

/-- The `month` value of `numberToDate` (line 65). -/
def ntdMonth (jd : ℚ) : ℤ := if ntdE jd < 14 then ntdE jd - 1 else ntdE jd - 13

/-- The `year` value of `numberToDate` (line 66). -/
def ntdYear (jd : ℚ) : ℤ := if ntdMonth jd > 2 then ntdC jd - 4716 else ntdC jd - 4715

/-- Function `numberToDate` from src/src/script.ts lines 46–73. The source applies
`Math.floor` to `year`, `month` and `day`; `year` and `month` are integer-valued
throughout (so the floor is the identity and they are ℤ here), while `day`
genuinely carries the residual `F` and is floored. -/
def numberToDate (jd : ℚ) : DateType :=
  { year := ntdYear jd, month := ntdMonth jd, day := ⌊ntdDay jd⌋ }

/-- Function `formatDate` from src/src/script.ts lines 75–81. A month outside 1–12 indexes
off the end of the name table; JavaScript renders the resulting `undefined` as
the string "undefined" in the template literal. -/
def formatDate (date : DateType) : String :=
  let monthStr : String :=
    if 1 ≤ date.month ∧ date.month ≤ 12 then
      monthNames.getD (date.month - 1).toNat ("undefined")
    else "undefined"
  let yearStr : String :=
    if date.year < 0 then toString date.year.natAbs ++ " BCE"
    else toString date.year ++ " CE"
  toString date.day ++ " " ++ monthStr ++ " " ++ yearStr

/-- Proleptic Gregorian leap-year rule, used to state which days of a month are
valid calendar dates (spec §3: `day` is a valid day-of-month). -/
def isLeapYear (y : ℤ) : Bool := y % 4 == 0 && (y % 100 != 0 || y % 400 == 0)

/-- Number of days of month `m` in year `y` (proleptic Gregorian). -/
def daysInMonth (y m : ℤ) : ℤ :=
  if m = 2 then (if isLeapYear y then 29 else 28)
  else if m = 4 ∨ m = 6 ∨ m = 9 ∨ m = 11 then 30
  else 31

/-- A valid `CalendarDate` per spec §3: month in 1..12 and day a valid
day of that month. -/
def ValidDate (d : DateType) : Prop :=
  1 ≤ d.month ∧ d.month ≤ 12 ∧ 1 ≤ d.day ∧ d.day ≤ daysInMonth d.year d.month

instance (d : DateType) : Decidable (ValidDate d) := by
  unfold ValidDate; infer_instance

/-- Date `d1` is chronologically before `d2` (lexicographic on year, month, day). -/
def chronoBefore (d1 d2 : DateType) : Prop :=
  d1.year < d2.year ∨
    (d1.year = d2.year ∧
      (d1.month < d2.month ∨ (d1.month = d2.month ∧ d1.day < d2.day)))

instance (d1 d2 : DateType) : Decidable (chronoBefore d1 d2) := by
  unfold chronoBefore; infer_instance

/-! ### Integer forms of the converter

The rational arithmetic of `dateToNumber`/`numberToDate` floors only quotients
of integers, so both functions have exact integer counterparts, proved equal
below and used both for evaluation and for the arithmetic proofs.
(`/` on ℤ is Euclidean division, which agrees with `Math.floor` division for
the positive divisors appearing here.) -/

/-- The value `⌊30.6001 * (m + 1)⌋` as integer arithmetic. -/
def Mv (m : ℤ) : ℤ := 306001 * (m + 1) / 10000

/-- The (shifted year) + 4716 of `dateToNumber`. -/
def shiftedYear (d : DateType) : ℤ := (if d.month ≤ 2 then d.year - 1 else d.year) + 4716

/-- The shifted month of `dateToNumber` (in 3..14 for valid months). -/
def shiftedMonth (d : DateType) : ℤ := if d.month ≤ 2 then d.month + 12 else d.month

/-- The Gregorian correction term `B` of `dateToNumber`, as a function of the
shifted year `y`. -/
def Bcorr (y : ℤ) : ℤ := if y < 0 then 0 else 2 - y / 100 + y / 100 / 4

/-- Year-dependent part of the integer Julian Day Number. -/
def Gfun (Y : ℤ) : ℤ := 1461 * Y / 4 + Bcorr (Y - 4716)

/-- Integer form of `dateToNumber`: `dateToNumber d = Kfun d - 1524.5`. -/
def Kfun (d : DateType) : ℤ := Gfun (shiftedYear d) + Mv (shiftedMonth d) + d.day

/-- Integer form of the `A` intermediate of `numberToDate`. -/
def ntdIntA (z : ℤ) : ℤ :=
  if z < 2299161 then z
  else
    let alpha : ℤ := (100 * z - 186721625) / 3652425
    z + 1 + alpha - alpha / 4

/-- Integer form of `numberToDate` at inputs of the form `k - 1524.5`
(every output of `dateToNumber` has this form, with `F = 0`). -/
def ntdInt (k : ℤ) : DateType :=
  let z : ℤ := k - 1524
  let b : ℤ := ntdIntA z + 1524
  let c : ℤ := (20 * b - 2442) / 7305
  let dd : ℤ := 1461 * c / 4
  let e : ℤ := 10000 * (b - dd) / 306001
  let day : ℤ := b - dd - 306001 * e / 10000
  let month : ℤ := if e < 14 then e - 1 else e - 13
  let year : ℤ := if month > 2 then c - 4716 else c - 4715
  ⟨year, month, day⟩

/-! ### Events, scales, filtering -/

/-- The `EventType` record from src/src/script.ts lines 11–18. -/
structure EventType where
  date : DateType
  name : String
  type : String
  description : String
  sources : List String
  dateValue : Option ℚ := none
  deriving DecidableEq, Repr

/-- Function `processEventData` (src/src/script.ts lines 83–88): attach the ordinal. -/
def processEventData (events : List EventType) : List EventType :=
  events.map fun e => { e with dateValue := some (dateToNumber e.date) }

/-- Semantics of `d3.extent` over the defined values: `(undefined, undefined)` when there are
none, otherwise the minimum and maximum. -/
def d3extent (l : List (Option ℚ)) : Option ℚ × Option ℚ :=
  match l.filterMap id with
  | [] => (none, none)
  | v :: vs => (some (vs.foldl min v), some (vs.foldl max v))

/-- JavaScript falsiness of `xExtent[i]` (a number or `undefined`): `!x` is true
for `undefined` and for `0`. -/
def jsFalsy : Option ℚ → Bool
  | none => true
  | some q => q == 0

/-- The x-extent computation and validity check of `setupScales`
(src/src/script.ts lines 97–105): `if (!xExtent[0] || !xExtent[1]) throw`,
otherwise the base domain is `[xExtent[0], xExtent[1]]`. -/
def setupScalesDomain (events : List EventType) : Except String (ℚ × ℚ) :=
  let ext := d3extent (events.map (·.dateValue))
  if jsFalsy ext.1 || jsFalsy ext.2 then
    Except.error ("Invalid data for x-axis extent.")
  else
    Except.ok (ext.1.getD 0, ext.2.getD 0)

/-- Function `filterEvents` from src/unnamed/part_000 lines 140–152. -/
def filterEvents (events : List EventType) (startYear endYear : Option ℤ) :
    List EventType :=
  events.filter fun event =>
    let eventYear := event.date.year
    let afterStart : Bool :=
      match startYear with
      | none => true
      | some s => ! decide (eventYear < s)
    let beforeEnd : Bool :=
      match endYear with
      | none => true
      | some e => ! decide (eventYear > e)
    afterStart && beforeEnd

/-! ### Viewport: rescale, clamp, zoom bounds -/

/-- Modelled from the spec: inversion of the base linear scale with domain
`[m, M]` and pixel range `[0, w]` (d3 `scaleLinear().invert`, a library
collaborator; spec §3 `AxisScale`: a monotonic linear mapping and its inverse). -/
def scaleInvert (m M w p : ℚ) : ℚ := m + (M - m) * p / w

/-- Modelled from the spec: `event.transform.rescaleX(x)` — "rescale the base
domain through the proposed transform" (spec §4.3) for a proposed transform
with scale `k` and translation `t` over pixel range `[0, w]`. -/
def rescaleDomain (m M w k t : ℚ) : ℚ × ℚ :=
  (scaleInvert m M w ((0 - t) / k), scaleInvert m M w ((w - t) / k))

/-- The domain clamp of the zoom handler (src/src/script.ts lines 313–325):
shift right by the deficit when the lower bound is below the base minimum,
then shift left by the excess when the upper bound exceeds the base maximum. -/
def clampDomain (m M : ℚ) (dom : ℚ × ℚ) : ℚ × ℚ :=
  let d1 : ℚ × ℚ := if dom.1 < m then (m, dom.2 + (m - dom.1)) else dom
  if d1.2 > M then (d1.1 - (d1.2 - M), M) else d1

/-- Visible domain after a sequence of zoom/pan gestures `(k, t)`. Each gesture
rescales the *base* scale `x` through its own transform (the handler always
rescales `x`, not the previous visible scale) and clamps; with no gestures the
visible domain is the base domain. -/
def visibleDomain (m M w : ℚ) (gestures : List (ℚ × ℚ)) : ℚ × ℚ :=
  gestures.foldl (fun _ g => clampDomain m M (rescaleDomain m M w g.1 g.2)) (m, M)

/-- Modelled from the spec: d3 `scaleExtent([1, 1000])` (src/src/script.ts line
306) clamps the scale factor committed by gestures and `scaleBy` to `[1, 1000]`
(spec §4.3: "Zoom factor is bounded to `[1, 1000]`"). -/
def clampScale (k : ℚ) : ℚ := min 1000 (max 1 k)

/-- A zoom interaction: a gesture proposing a new scale factor, or the `-`/`+`
buttons calling `scaleBy` with a factor (0.5 or 2). -/
inductive ZoomOp where
  | gesture (proposed : ℚ)
  | scaleBy (factor : ℚ)
  deriving DecidableEq, Repr

/-- Committing one zoom interaction: both classes are clamped to the scale
extent `[1, 1000]`. -/
def applyZoomOp (k : ℚ) : ZoomOp → ℚ
  | .gesture p => clampScale p
  | .scaleBy f => clampScale (k * f)

/-- Scale factor after a sequence of zoom interactions starting from `k0`. -/
def committedScale (k0 : ℚ) (ops : List ZoomOp) : ℚ := ops.foldl applyZoomOp k0

/-- Query-parameter zoom initialization (src/unnamed/part_000 lines 117–122):
`currentZoom = d3.zoomIdentity.scale(parseFloat(queryParams.zoom))`. The parsed
value `q` is used as the scale factor with no clamping, and is committed as
given by `svgRoot.call(zoom.transform, currentZoom)`. -/
def initialZoomScale (q : ℚ) : ℚ := q

/-! ### Tooltip time-in-day (JavaScript number semantics with NaN/Infinity) -/

/-- A JavaScript number as needed by the tooltip computation: finite, the two
infinities, or `NaN`. -/
inductive JSNum where
  | fin (q : ℚ)
  | posInf
  | negInf
  | nan
  deriving DecidableEq, Repr

/-- JavaScript division, including `0/0 = NaN` and `x/0 = ±Infinity`. -/
def jsDiv : JSNum → JSNum → JSNum
  | .fin a, .fin b =>
    if b = 0 then (if a = 0 then .nan else if 0 < a then .posInf else .negInf)
    else .fin (a / b)
  | .nan, _ => .nan
  | _, .nan => .nan
  | .posInf, .fin b => if 0 ≤ b then .posInf else .negInf
  | .negInf, .fin b => if 0 ≤ b then .negInf else .posInf
  | .fin _, .posInf => .fin 0
  | .fin _, .negInf => .fin 0
  | _, _ => .nan

/-- JavaScript multiplication on the fragment used here (`Infinity * 0 = NaN`). -/
def jsMul : JSNum → JSNum → JSNum
  | .fin a, .fin b => .fin (a * b)
  | .nan, _ => .nan
  | _, .nan => .nan
  | .posInf, .fin b => if b = 0 then .nan else if 0 < b then .posInf else .negInf
  | .negInf, .fin b => if b = 0 then .nan else if 0 < b then .negInf else .posInf
  | .fin a, .posInf => if a = 0 then .nan else if 0 < a then .posInf else .negInf
  | .fin a, .negInf => if a = 0 then .nan else if 0 < a then .negInf else .posInf
  | .posInf, .posInf => .posInf
  | .negInf, .negInf => .posInf
  | _, _ => .negInf

/-- Truncation toward zero, as JavaScript `%` uses. -/
def ratTrunc (q : ℚ) : ℤ := if 0 ≤ q then ⌊q⌋ else -⌊-q⌋

/-- Semantics of `Math.floor` on a JavaScript number (`Math.floor(NaN) = NaN`, infinities fixed). -/
def jsFloor : JSNum → JSNum
  | .fin q => .fin (⌊q⌋ : ℚ)
  | x => x

/-- JavaScript remainder `%` (`Infinity % n = NaN`, `NaN % n = NaN`). -/
def jsMod : JSNum → JSNum → JSNum
  | .fin a, .fin b => if b = 0 then .nan else .fin (a - b * (ratTrunc (a / b) : ℚ))
  | .fin a, .posInf => .fin a
  | .fin a, .negInf => .fin a
  | _, _ => .nan

/-- Semantics of `String(x)` for the values reaching it here (outputs of `Math.floor`). -/
def jsToString : JSNum → String
  | .fin q => if q.den = 1 then toString q.num else toString q
  | .posInf => "Infinity"
  | .negInf => "-Infinity"
  | .nan => "NaN"

/-- Semantics of `String.prototype.padStart(2, '0')`. -/
def padStart2 (s : String) : String :=
  if s.length < 2 then String.mk (List.replicate (2 - s.length) '0' ++ s.data)
  else s

/-- The `minutesInDay` of `createEventHandlers.showInfo` (src/src/script.ts lines
199–201): `(d.dateValue - minDateValue) / (maxDateValue - minDateValue) *
(CONFIG.dayEnd - CONFIG.dayStart)` with `dayEnd - dayStart = 1440`. -/
def showInfoMinutesInDay (dv minDV maxDV : ℚ) : JSNum :=
  jsMul (jsDiv (.fin (dv - minDV)) (.fin (maxDV - minDV))) (.fin 1440)

/-- The formatted `timeInDay` string of `showInfo` (lines 202–204). -/
def showInfoTimeInDay (dv minDV maxDV : ℚ) : String :=
  let m := showInfoMinutesInDay dv minDV maxDV
  let hours := jsFloor (jsDiv m (.fin 60))
  let minutes := jsFloor (jsMod m (.fin 60))
  padStart2 (jsToString hours) ++ ":" ++ padStart2 (jsToString minutes)

/-! ### Bridging lemmas: the rational floors are integer divisions -/

lemma floor_int_div (a b : ℤ) (hb : 0 < b) : ⌊(a : ℚ) / (b : ℚ)⌋ = a / b := by
  rcases Int.eq_ofNat_of_zero_le hb.le with ⟨n, rfl⟩
  rw [Int.cast_natCast, Rat.floor_intCast_div_natCast]

lemma floor_mul_36525 (a : ℤ) : ⌊(365.25 : ℚ) * (a : ℚ)⌋ = 1461 * a / 4 := by
  have h : (365.25 : ℚ) * (a : ℚ) = ((1461 * a : ℤ) : ℚ) / ((4 : ℤ) : ℚ) := by
    push_cast; ring
  rw [h, floor_int_div _ _ (by norm_num)]

lemma floor_mul_306001 (a : ℤ) : ⌊(30.6001 : ℚ) * (a : ℚ)⌋ = 306001 * a / 10000 := by
  have h : (30.6001 : ℚ) * (a : ℚ) = ((306001 * a : ℤ) : ℚ) / ((10000 : ℤ) : ℚ) := by
    push_cast; ring
  rw [h, floor_int_div _ _ (by norm_num)]

lemma floor_div_100 (a : ℤ) : ⌊(a : ℚ) / 100⌋ = a / 100 := by
  have h : (a : ℚ) / 100 = ((a : ℤ) : ℚ) / ((100 : ℤ) : ℚ) := by push_cast; ring
  rw [h, floor_int_div _ _ (by norm_num)]

lemma floor_div_4 (a : ℤ) : ⌊(a : ℚ) / 4⌋ = a / 4 := by
  have h : (a : ℚ) / 4 = ((a : ℤ) : ℚ) / ((4 : ℤ) : ℚ) := by push_cast; ring
  rw [h, floor_int_div _ _ (by norm_num)]

/-- Function `dateToNumber` equals its integer form shifted by the half-day constant. -/
theorem dateToNumber_eq_Kfun (d : DateType) :
    dateToNumber d = ((Kfun d : ℤ) : ℚ) - 1524.5 := by
  unfold dateToNumber Kfun Gfun Bcorr Mv shiftedYear shiftedMonth
  by_cases h : d.month ≤ 2
  · simp only [if_pos h]
    rw [show ((d.year - 1 : ℤ) : ℚ) + 4716 = ((d.year - 1 + 4716 : ℤ) : ℚ) by push_cast; ring,
      show ((d.month + 12 : ℤ) : ℚ) + 1 = ((d.month + 12 + 1 : ℤ) : ℚ) by push_cast; ring,
      floor_mul_36525, floor_mul_306001, floor_div_100, add_sub_cancel_right]
    split_ifs with h2
    · push_cast; ring
    · rw [floor_div_4]; push_cast; ring
  · simp only [if_neg h]
    rw [show (d.year : ℚ) + 4716 = ((d.year + 4716 : ℤ) : ℚ) by push_cast; ring,
      show (d.month : ℚ) + 1 = ((d.month + 1 : ℤ) : ℚ) by push_cast; ring,
      floor_mul_36525, floor_mul_306001, floor_div_100, add_sub_cancel_right]
    split_ifs with h2
    · push_cast; ring
    · rw [floor_div_4]; push_cast; ring

lemma ntdZ_half (k : ℤ) : ntdZ ((k : ℚ) - 1524.5) = k - 1524 := by
  unfold ntdZ
  rw [show (k : ℚ) - 1524.5 + 0.5 = ((k - 1524 : ℤ) : ℚ) by push_cast; ring,
    Int.floor_intCast]

lemma ntdF_half (k : ℤ) : ntdF ((k : ℚ) - 1524.5) = 0 := by
  unfold ntdF
  rw [ntdZ_half]; push_cast; ring

lemma ntdA_half (k : ℤ) : ntdA ((k : ℚ) - 1524.5) = ntdIntA (k - 1524) := by
  unfold ntdA ntdIntA
  rw [ntdZ_half]
  split_ifs with h
  · rfl
  · have halpha : ⌊(((k - 1524 : ℤ) : ℚ) - 1867216.25) / 36524.25⌋ =
        (100 * (k - 1524) - 186721625) / 3652425 := by
      rw [show (((k - 1524 : ℤ) : ℚ) - 1867216.25) / 36524.25 =
          ((100 * (k - 1524) - 186721625 : ℤ) : ℚ) / ((3652425 : ℤ) : ℚ) by push_cast; ring]
      exact floor_int_div _ _ (by norm_num)
    dsimp only
    rw [halpha, floor_div_4]

lemma ntdB_half (k : ℤ) : ntdB ((k : ℚ) - 1524.5) = ntdIntA (k - 1524) + 1524 := by
  unfold ntdB; rw [ntdA_half]

lemma ntdC_half (k : ℤ) :
    ntdC ((k : ℚ) - 1524.5) = (20 * (ntdIntA (k - 1524) + 1524) - 2442) / 7305 := by
  unfold ntdC
  rw [ntdB_half,
    show (((ntdIntA (k - 1524) + 1524 : ℤ) : ℚ) - 122.1) / 365.25 =
      ((20 * (ntdIntA (k - 1524) + 1524) - 2442 : ℤ) : ℚ) / ((7305 : ℤ) : ℚ) by push_cast; ring]
  exact floor_int_div _ _ (by norm_num)

lemma ntdD_half (k : ℤ) :
    ntdD ((k : ℚ) - 1524.5) = 1461 * ((20 * (ntdIntA (k - 1524) + 1524) - 2442) / 7305) / 4 := by
  unfold ntdD
  rw [ntdC_half, floor_mul_36525]

lemma ntdE_half (k : ℤ) :
    ntdE ((k : ℚ) - 1524.5) =
      10000 * ((ntdIntA (k - 1524) + 1524) -
        1461 * ((20 * (ntdIntA (k - 1524) + 1524) - 2442) / 7305) / 4) / 306001 := by
  unfold ntdE
  rw [ntdB_half, ntdD_half,
    show (((ntdIntA (k - 1524) + 1524 : ℤ) : ℚ) -
        ((1461 * ((20 * (ntdIntA (k - 1524) + 1524) - 2442) / 7305) / 4 : ℤ) : ℚ)) / 30.6001 =
      ((10000 * ((ntdIntA (k - 1524) + 1524) -
        1461 * ((20 * (ntdIntA (k - 1524) + 1524) - 2442) / 7305) / 4) : ℤ) : ℚ) /
        ((306001 : ℤ) : ℚ) by push_cast; ring]
  exact floor_int_div _ _ (by norm_num)

/-- Function `numberToDate` at an input of the form `k - 1524.5` equals its integer form. -/
theorem numberToDate_eq_ntdInt (k : ℤ) :
    numberToDate ((k : ℚ) - 1524.5) = ntdInt k := by
  have hday : ntdDay ((k : ℚ) - 1524.5) =
      (((ntdIntA (k - 1524) + 1524) -
        1461 * ((20 * (ntdIntA (k - 1524) + 1524) - 2442) / 7305) / 4 -
        306001 * (10000 * ((ntdIntA (k - 1524) + 1524) -
          1461 * ((20 * (ntdIntA (k - 1524) + 1524) - 2442) / 7305) / 4) / 306001) / 10000 :
        ℤ) : ℚ) := by
    unfold ntdDay
    rw [ntdB_half, ntdD_half, ntdE_half, ntdF_half, floor_mul_306001]
    push_cast; ring
  unfold numberToDate ntdInt ntdYear ntdMonth
  rw [ntdE_half, ntdC_half, hday, Int.floor_intCast]

/-! ### C3 helpers: evaluating the converter at concrete dates -/

lemma roundTrip_eq_int (d : DateType) :
    numberToDate (dateToNumber d) = ntdInt (Kfun d) := by
  rw [dateToNumber_eq_Kfun, numberToDate_eq_ntdInt]

lemma ntdDay_half (k : ℤ) :
    ntdDay ((k : ℚ) - 1524.5) =
      (((ntdIntA (k - 1524) + 1524) -
        1461 * ((20 * (ntdIntA (k - 1524) + 1524) - 2442) / 7305) / 4 -
        306001 * (10000 * ((ntdIntA (k - 1524) + 1524) -
          1461 * ((20 * (ntdIntA (k - 1524) + 1524) - 2442) / 7305) / 4) / 306001) / 10000 :
        ℤ) : ℚ) := by
  unfold ntdDay
  rw [ntdB_half, ntdD_half, ntdE_half, ntdF_half, floor_mul_306001]
  push_cast; ring

/-! ### C3: known fixed points -/

/-- C3: `dateToNumber` maps 2000-01-01 to exactly the standard Julian Day Number
2451544.5, and `formatDate` renders year -44, month 3, day 15 as "15 Mar 44 BCE". -/
theorem C3_known_fixed_points :
    dateToNumber ⟨2000, 1, 1⟩ = 2451544.5 ∧ formatDate ⟨-44, 3, 15⟩ = "15 Mar 44 BCE" := by
  constructor
  · have h : Kfun ⟨2000, 1, 1⟩ = 2453069 := by decide
    rw [dateToNumber_eq_Kfun, h]; norm_num
  · rfl

/-! ### C4: formatDate rendering -/

/-- Modelled from the amended claim: the month abbreviation for months 1–12. -/
def monthAbbrevSpec (m : ℤ) : String :=
  if m = 1 then "Jan" else if m = 2 then "Feb" else if m = 3 then "Mar"
  else if m = 4 then "Apr" else if m = 5 then "May" else if m = 6 then "Jun"
  else if m = 7 then "Jul" else if m = 8 then "Aug" else if m = 9 then "Sep"
  else if m = 10 then "Oct" else if m = 11 then "Nov" else "Dec"

/-- Modelled from the amended claim: render "<day> <MonthAbbrev> <|year|> <BCE|CE>",
where strictly negative years render as BCE with the absolute value of the year
and every year ≥ 0 (including year 0) renders as CE. -/
def formatDateSpecAmended (d : DateType) : String :=
  toString d.day ++ " " ++ monthAbbrevSpec d.month ++ " " ++
    (if d.year < 0 then toString d.year.natAbs ++ " BCE" else toString d.year ++ " CE")

/-- C4 counterexample: the claim says year 0 renders as BCE with the absolute
value of the year ("1 Jan 0 BCE"), but `formatDate` renders year 0 with the CE
suffix. -/
theorem C4_formatDate_counterexample :
    formatDate ⟨0, 1, 1⟩ = "1 Jan 0 CE" ∧ formatDate ⟨0, 1, 1⟩ ≠ "1 Jan 0 BCE" := by
  constructor
  · rfl
  · decide

/-- C4 amended: for every date with month in 1..12, `formatDate` renders
"<day> <MonthAbbrev> <|year|> <BCE|CE>" with the fixed 3-letter English month
abbreviation indexed by `month - 1`, where negative years render as BCE with
the absolute value of the year and years ≥ 0 (including year 0) render as CE. -/
theorem C4_formatDate_amended (d : DateType) (h1 : 1 ≤ d.month) (h2 : d.month ≤ 12) :
    formatDate d = formatDateSpecAmended d := by
  obtain ⟨y, m, day⟩ := d
  simp only at h1 h2
  unfold formatDate formatDateSpecAmended monthAbbrevSpec monthNames
  interval_cases m <;> rfl

theorem C4_formatDate_amended_witness :
    (1 : ℤ) ≤ 3 ∧ (3 : ℤ) ≤ 12 ∧
      formatDate ⟨-44, 3, 15⟩ = formatDateSpecAmended ⟨-44, 3, 15⟩ :=
  ⟨by decide, by decide, C4_formatDate_amended ⟨-44, 3, 15⟩ (by decide) (by decide)⟩

/-! ### C5: setupScales extent check -/

/-- A single event whose cached ordinal is 0: a non-empty event set whose
minimum and maximum ordinal are both 0. -/
def zeroOrdinalEvents : List EventType :=
  [{ date := ⟨2000, 1, 1⟩, name := "e", type := "t", description := "",
     sources := [], dateValue := some 0 }]

/-- C5: the claim says `setupScales` errors iff the event set is empty, and in
particular succeeds (with domain `[0, 0]`) on a non-empty set whose minimum and
maximum ordinal are 0. The code's `!xExtent[0] || !xExtent[1]` check uses
JavaScript falsiness, so an extent value of `0` also throws: on this non-empty
one-event set with ordinal 0 the extent is `(0, 0)` and the code errors. -/
theorem C5_setupScales_zero_ordinal :
    zeroOrdinalEvents ≠ [] ∧
      d3extent (zeroOrdinalEvents.map (·.dateValue)) = (some 0, some 0) ∧
      setupScalesDomain zeroOrdinalEvents = Except.error ("Invalid data for x-axis extent.") := by
  refine ⟨by decide, rfl, rfl⟩

/-! ### C8: filterEvents -/

/-- An event in year `y` (only the year matters to `filterEvents`). -/
def yearEvent (y : ℤ) : EventType :=
  { date := ⟨y, 1, 1⟩, name := "", type := "", description := "", sources := [] }

/-- C8: `filterEvents` keeps exactly the events whose year is ≥ `startYear`
(when present) and ≤ `endYear` (when present); and on events in years
-50, 10, 500, 1990 with bounds 0 and 1000 it returns exactly the events at
years 10 and 500. -/
theorem C8_filterEvents :
    (∀ (l : List EventType) (s e : Option ℤ) (ev : EventType),
        ev ∈ filterEvents l s e ↔
          ev ∈ l ∧ (∀ sv, s = some sv → sv ≤ ev.date.year) ∧
            (∀ evv, e = some evv → ev.date.year ≤ evv)) ∧
      filterEvents [yearEvent (-50), yearEvent 10, yearEvent 500, yearEvent 1990]
          (some 0) (some 1000) =
        [yearEvent 10, yearEvent 500] := by
  constructor
  · intro l s e ev
    unfold filterEvents
    rw [List.mem_filter]
    cases s <;> cases e <;> simp
  · rfl

/-! ### C9: half-integer outputs and zero residual -/

/-- C9: for every `DateType` with integer fields, `dateToNumber` returns a
half-integer (fractional part exactly 1/2); consequently in `numberToDate`
applied to such an output the residual `F` is exactly 0 and the computed `day`
value is an integer before the final floor. -/
theorem C9_half_integer (d : DateType) :
    Int.fract (dateToNumber d) = 1 / 2 ∧ ntdF (dateToNumber d) = 0 ∧
      ∃ n : ℤ, ntdDay (dateToNumber d) = (n : ℚ) := by
  rw [dateToNumber_eq_Kfun]
  refine ⟨?_, ntdF_half _, ⟨_, ntdDay_half _⟩⟩
  rw [show ((Kfun d : ℤ) : ℚ) - 1524.5 = ((Kfun d - 1525 : ℤ) : ℚ) + 1 / 2 by push_cast; ring,
    Int.fract_int_add, Int.fract_eq_self.mpr (by norm_num)]

/-! ### C10: tooltip time-in-day on a degenerate domain -/

/-- C10: `showInfo` divides by `maxDateValue - minDateValue` without a guard.
For a degenerate single-point domain (every event shares the one ordinal `v`,
so `dateValue = minDateValue = maxDateValue = v`) the divisor is 0, the
minutes-in-day value is `0/0 = NaN`, and the rendered string is "NaN:NaN"
rather than a well-defined HH:MM time. -/
theorem C10_showInfo_degenerate_domain (v : ℚ) :
    v - v = 0 ∧ showInfoMinutesInDay v v v = JSNum.nan ∧
      showInfoTimeInDay v v v = "NaN:NaN" := by
  have hm : showInfoMinutesInDay v v v = JSNum.nan := by
    unfold showInfoMinutesInDay
    rw [sub_self]
    rfl
  refine ⟨sub_self v, hm, ?_⟩
  unfold showInfoTimeInDay
  rw [hm]
  rfl

/-! ### C6: clamp invariant -/

lemma rescaleDomain_span (m M w k t : ℚ) (hw : w ≠ 0) (hk : k ≠ 0) :
    (rescaleDomain m M w k t).2 - (rescaleDomain m M w k t).1 = (M - m) / k := by
  unfold rescaleDomain scaleInvert
  field_simp
  ring

lemma clampDomain_invariant (m M : ℚ) (dom : ℚ × ℚ) (hmM : m ≤ M)
    (h0 : 0 ≤ dom.2 - dom.1) (hspan : dom.2 - dom.1 ≤ M - m) :
    m ≤ (clampDomain m M dom).1 ∧ (clampDomain m M dom).1 ≤ (clampDomain m M dom).2 ∧
      (clampDomain m M dom).2 ≤ M := by
  obtain ⟨a, b⟩ := dom
  simp only at h0 hspan
  unfold clampDomain
  dsimp only
  split_ifs with h1 h2 h3 <;> dsimp only <;>
    refine ⟨by linarith, by linarith, by linarith⟩

lemma gesture_invariant (m M w k t : ℚ) (hmM : m ≤ M) (hw : 0 < w) (hk : 1 ≤ k) :
    m ≤ (clampDomain m M (rescaleDomain m M w k t)).1 ∧
      (clampDomain m M (rescaleDomain m M w k t)).1 ≤
        (clampDomain m M (rescaleDomain m M w k t)).2 ∧
      (clampDomain m M (rescaleDomain m M w k t)).2 ≤ M := by
  have hk0 : k ≠ 0 := by intro h; rw [h] at hk; norm_num at hk
  have hspan := rescaleDomain_span m M w k t (ne_of_gt hw) hk0
  apply clampDomain_invariant m M _ hmM
  · rw [hspan]
    exact div_nonneg (by linarith) (by linarith)
  · rw [hspan]
    exact div_le_self (by linarith) hk

/-- C6: for every base domain `[m, M]`, positive pixel width, and any sequence of
zoom/pan gestures whose proposed transforms have scale factor at least 1, the
clamped visible domain produced by the zoom handler satisfies
`m ≤ visibleMin ≤ visibleMax ≤ M`. -/
theorem C6_clamp_invariant (m M w : ℚ) (gs : List (ℚ × ℚ))
    (hmM : m ≤ M) (hw : 0 < w) (hk : ∀ g ∈ gs, 1 ≤ g.1) :
    m ≤ (visibleDomain m M w gs).1 ∧
      (visibleDomain m M w gs).1 ≤ (visibleDomain m M w gs).2 ∧
      (visibleDomain m M w gs).2 ≤ M := by
  unfold visibleDomain
  induction gs generalizing m M w with
  | nil => exact ⟨le_refl m, hmM, le_refl M⟩
  | cons g tl ih =>
    rw [List.foldl_cons]
    rcases tl with _ | ⟨g2, tl2⟩
    · exact gesture_invariant m M w g.1 g.2 hmM hw (hk g (by simp))
    · have h2 := ih m M w hmM hw (fun g' hg' => hk g' (List.mem_cons_of_mem g hg'))
      rw [List.foldl_cons] at h2
      exact h2

theorem C6_clamp_invariant_witness :
    (0 : ℚ) ≤ 100 ∧ (0 : ℚ) < 1000 ∧
      (∀ g ∈ [((2 : ℚ), (-500 : ℚ))], 1 ≤ g.1) ∧
      (0 ≤ (visibleDomain 0 100 1000 [(2, -500)]).1 ∧
        (visibleDomain 0 100 1000 [(2, -500)]).1 ≤ (visibleDomain 0 100 1000 [(2, -500)]).2 ∧
        (visibleDomain 0 100 1000 [(2, -500)]).2 ≤ 100) :=
  ⟨by norm_num, by norm_num, by norm_num,
    C6_clamp_invariant 0 100 1000 [(2, -500)] (by norm_num) (by norm_num) (by norm_num)⟩

/-! ### C7: zoom scale bounds -/

/-- C7 counterexample: the claim says the committed scale factor stays in
`[1, 1000]` including a transform initialized from the `zoom` query parameter,
but the query-parameter initialization (src/unnamed/part_000 lines 117–122)
applies no clamping: a URL with `zoom=2000` commits scale factor 2000. -/
theorem C7_zoom_scale_counterexample :
    committedScale (initialZoomScale 2000) [] = 2000 ∧
      ¬ committedScale (initialZoomScale 2000) [] ≤ 1000 := by
  constructor
  · rfl
  · norm_num [committedScale, initialZoomScale]

/-- C7 amended: starting from any committed scale factor within `[1, 1000]`,
any sequence of zoom gestures and zoom-by-factor button presses (all clamped by
the scale extent) keeps the committed scale factor within `[1, 1000]`; the
transform initialized from the `zoom` query parameter, however, is committed
without clamping and need not lie in the bounds. -/
theorem C7_zoom_scale_amended (k0 : ℚ) (ops : List ZoomOp)
    (h1 : 1 ≤ k0) (h2 : k0 ≤ 1000) :
    1 ≤ committedScale k0 ops ∧ committedScale k0 ops ≤ 1000 := by
  unfold committedScale
  induction ops generalizing k0 with
  | nil => exact ⟨h1, h2⟩
  | cons op tl ih =>
    rw [List.foldl_cons]
    have hstep : 1 ≤ applyZoomOp k0 op ∧ applyZoomOp k0 op ≤ 1000 := by
      cases op <;>
        · unfold applyZoomOp clampScale
          exact ⟨le_min (by norm_num) (le_max_left 1 _), min_le_left _ _⟩
    exact ih _ hstep.1 hstep.2

theorem C7_zoom_scale_amended_witness :
    (1 : ℚ) ≤ 1 ∧ (1 : ℚ) ≤ 1000 ∧
      (1 ≤ committedScale 1 [ZoomOp.scaleBy 2, ZoomOp.scaleBy 2] ∧
        committedScale 1 [ZoomOp.scaleBy 2, ZoomOp.scaleBy 2] ≤ 1000) :=
  ⟨by norm_num, by norm_num,
    C7_zoom_scale_amended 1 [ZoomOp.scaleBy 2, ZoomOp.scaleBy 2] (by norm_num) (by norm_num)⟩

/-! ### C1: round-trip analysis -/

/-- Recovery of the year (`C`) and shifted month (`E`) in the inverse algorithm,
for `B = 1461*Y/4 + Mv mo + dy`. The bound `dy ≤ 29` for the shifted month 14
(February) may be 29 only when `Y % 4 = 3`, which is exactly when the Julian
pattern embedded in the formula has a leap day. -/
lemma invCoreRecover (Y mo dy : ℤ) (hm3 : 3 ≤ mo) (hm14 : mo ≤ 14) (hd1 : 1 ≤ dy)
    (hub : dy ≤ 31) (hub30 : mo = 4 ∨ mo = 6 ∨ mo = 9 ∨ mo = 11 ∨ mo = 14 → dy ≤ 30)
    (hfeb : mo = 14 → dy ≤ 28 + (if Y % 4 = 3 then 1 else 0)) :
    (20 * (1461 * Y / 4 + Mv mo + dy) - 2442) / 7305 = Y ∧
      10000 * (Mv mo + dy) / 306001 = mo + 1 := by
  have hfeb2 : mo = 14 → (dy ≤ 28 ∨ (dy ≤ 29 ∧ Y % 4 = 3)) := by
    intro h
    have hf := hfeb h
    split_ifs at hf with h4
    · exact Or.inr ⟨by omega, h4⟩
    · exact Or.inl (by omega)
  clear hfeb
  have hMv : Mv mo = 306001 * (mo + 1) / 10000 := rfl
  interval_cases mo <;> (rw [hMv]; constructor <;> omega)

/-- On the Julian-coincident path (the correction term `Bcorr` is zero — either
a negative shifted year, or a shifted year in 200..299 where
`2 - A + A/4 = 0` — and the JDN is small enough that the inverse takes the
`Z < 2299161` branch), the inverse `A` is `Z` itself. -/
lemma ntdIntA_julian (Y mo dy : ℤ) (hY : Y ≤ 6000) (hm3 : 3 ≤ mo) (hm14 : mo ≤ 14)
    (hd1 : 1 ≤ dy) (hub : dy ≤ 31) (hB0 : Bcorr (Y - 4716) = 0) :
    ntdIntA (1461 * Y / 4 + Mv mo + dy + Bcorr (Y - 4716) - 1524) =
      1461 * Y / 4 + Mv mo + dy - 1524 := by
  rw [hB0, add_zero]
  have hMv : Mv mo = 306001 * (mo + 1) / 10000 := rfl
  unfold ntdIntA
  rw [if_pos (by omega)]

/-- On the Gregorian path (year ≥ 1583, so `Z ≥ 2299161`), the `alpha`
correction of the inverse exactly cancels the forward Gregorian correction
`Bcorr`. The Gregorian leap rule enters through `hleap`: a February 29 is
only valid in a year divisible by 4 that is not a century year other than a
multiple of 400. -/
lemma ntdIntA_greg (Y mo dy : ℤ) (hY : 6298 ≤ Y) (hY2 : Y = 6298 → 13 ≤ mo)
    (hm3 : 3 ≤ mo) (hm14 : mo ≤ 14) (hd1 : 1 ≤ dy) (hub : dy ≤ 31)
    (hfeb29 : mo = 14 → dy ≤ 29)
    (hleap : mo = 14 → dy = 29 →
      (Y - 4715) % 4 = 0 ∧ ((Y - 4715) % 100 ≠ 0 ∨ (Y - 4715) % 400 = 0)) :
    ntdIntA (1461 * Y / 4 + Mv mo + dy + Bcorr (Y - 4716) - 1524) =
      1461 * Y / 4 + Mv mo + dy - 1524 := by
  have hMv : Mv mo = 306001 * (mo + 1) / 10000 := rfl
  have hBc : Bcorr (Y - 4716) = 2 - (Y - 4716) / 100 + (Y - 4716) / 100 / 4 := by
    unfold Bcorr; rw [if_neg (by omega)]
  rw [hBc]
  unfold ntdIntA
  rw [if_neg (by rw [hMv] at *; omega)]
  dsimp only
  rw [hMv]
  set A := (Y - 4716) / 100 with hA
  set z := 1461 * Y / 4 + 306001 * (mo + 1) / 10000 + dy + (2 - A + A / 4) - 1524 with hz
  have hcong : ((Y - 4716) % 100) % 4 = Y % 4 := by omega
  have hkey1 : (Y - 4716) % 100 = 0 → 1461 * Y % 4 = 0 := by omega
  have hkey3 : (Y - 4716) % 100 = 99 → (Y - 4715) % 100 = 0 := by omega
  have hr99 : (Y - 4716) % 100 = 99 → (Y - 4715) % 400 = 0 → (Y - 4716) / 100 % 4 = 3 := by
    omega
  have h1 : 3652425 * (A - 4) ≤ 100 * z - 186721625 := by
    rw [hz, hA]
    interval_cases mo <;> omega
  have h2 : 100 * z - 186721625 < 3652425 * (A - 4 + 1) := by
    rw [hz, hA]
    interval_cases mo <;> omega
  have halpha : (100 * z - 186721625) / 3652425 = A - 4 := by omega
  rw [halpha]
  omega

/-- Assembly of the inverse algorithm: given the branch-specific fact `hB`
about the inverse `A` step, `ntdInt` recovers the date from its shifted
components. -/
lemma roundtrip_int_core (Y mo dy : ℤ) (hm3 : 3 ≤ mo) (hm14 : mo ≤ 14) (hd1 : 1 ≤ dy)
    (hub : dy ≤ 31) (hub30 : mo = 4 ∨ mo = 6 ∨ mo = 9 ∨ mo = 11 ∨ mo = 14 → dy ≤ 30)
    (hfeb : mo = 14 → dy ≤ 28 + (if Y % 4 = 3 then 1 else 0))
    (hB : ntdIntA (1461 * Y / 4 + Mv mo + dy + Bcorr (Y - 4716) - 1524) =
      1461 * Y / 4 + Mv mo + dy - 1524) :
    ntdInt (1461 * Y / 4 + Mv mo + dy + Bcorr (Y - 4716)) =
      ⟨if mo ≤ 12 then Y - 4716 else Y - 4715, if mo ≤ 12 then mo else mo - 12, dy⟩ := by
  obtain ⟨hc, he⟩ := invCoreRecover Y mo dy hm3 hm14 hd1 hub hub30 hfeb
  unfold ntdInt
  dsimp only
  rw [hB,
    show 1461 * Y / 4 + Mv mo + dy - 1524 + 1524 = 1461 * Y / 4 + Mv mo + dy by ring,
    hc,
    show 1461 * Y / 4 + Mv mo + dy - 1461 * Y / 4 = Mv mo + dy by ring,
    he,
    show (306001 * (mo + 1) / 10000 : ℤ) = Mv mo from rfl,
    show Mv mo + dy - Mv mo = dy by ring]
  clear hB hc he hfeb hub30
  split_ifs <;> rw [DateType.mk.injEq] <;> omega

lemma Kfun_decomp (d : DateType) :
    Kfun d = 1461 * shiftedYear d / 4 + Mv (shiftedMonth d) + d.day +
      Bcorr (shiftedYear d - 4716) := by
  unfold Kfun Gfun; ring

/-- C1 counterexample: the date year 100, March 1 is valid and inside the
claimed range -4000..4000, but the round trip through `dateToNumber` and
`numberToDate` returns March 2 (forward conversion applies the Gregorian
correction for all non-negative years while the inverse, below the threshold
2299161, takes the Julian branch). -/
theorem C1_roundtrip_counterexample :
    ValidDate ⟨100, 3, 1⟩ ∧ (-4000 : ℤ) ≤ 100 ∧ (100 : ℤ) ≤ 4000 ∧ (100 : ℤ) ≠ 0 ∧
      numberToDate (dateToNumber ⟨100, 3, 1⟩) = ⟨100, 3, 2⟩ ∧
      numberToDate (dateToNumber ⟨100, 3, 1⟩) ≠ ⟨100, 3, 1⟩ := by
  refine ⟨by decide, by decide, by decide, by decide, ?_, ?_⟩ <;>
    rw [roundTrip_eq_int] <;> decide

/-- C1 amended: the round trip `numberToDate (dateToNumber d) = d` holds for
every valid date whose year lies in -4000..-1 (the all-Julian range), or in
1583..4000 (strictly after the Gregorian cutover), or whose shifted formula
year (`shiftedYear d - 4716`, i.e. the year decremented for January/February)
lies in 200..299, where the Gregorian correction `2 - A + ⌊A/4⌋` is zero and
the forward formula coincides with the Julian inverse branch. It does not
hold over all of -4000..4000: it fails at year 100 (the counterexample). -/
theorem C1_roundtrip_amended (d : DateType) (hv : ValidDate d)
    (hy : (-4000 ≤ d.year ∧ d.year ≤ -1) ∨ (1583 ≤ d.year ∧ d.year ≤ 4000) ∨
      (200 ≤ shiftedYear d - 4716 ∧ shiftedYear d - 4716 ≤ 299)) :
    numberToDate (dateToNumber d) = d := by
  obtain ⟨hm1, hm2, hd1, hd4⟩ := hv
  have hm3 : 3 ≤ shiftedMonth d := by unfold shiftedMonth; split_ifs <;> omega
  have hm14 : shiftedMonth d ≤ 14 := by unfold shiftedMonth; split_ifs <;> omega
  have hub : d.day ≤ 31 := by
    unfold daysInMonth at hd4; split_ifs at hd4 <;> omega
  have hub30 : shiftedMonth d = 4 ∨ shiftedMonth d = 6 ∨ shiftedMonth d = 9 ∨
      shiftedMonth d = 11 ∨ shiftedMonth d = 14 → d.day ≤ 30 := by
    intro h
    unfold shiftedMonth at h
    unfold daysInMonth at hd4
    split_ifs at h hd4 <;> omega
  have hYfeb : d.month ≤ 2 → shiftedYear d = d.year + 4715 := by
    intro h; unfold shiftedYear; rw [if_pos h]; ring
  have hYmar : ¬ d.month ≤ 2 → shiftedYear d = d.year + 4716 := by
    intro h; unfold shiftedYear; rw [if_neg h]
  have hmo14feb : shiftedMonth d = 14 → d.month = 2 := by
    intro h; unfold shiftedMonth at h; split_ifs at h <;> omega
  have hfeb : shiftedMonth d = 14 → d.day ≤ 28 + (if shiftedYear d % 4 = 3 then 1 else 0) := by
    intro h
    have hm2' : d.month = 2 := hmo14feb h
    have hYv : shiftedYear d = d.year + 4715 := hYfeb (by omega)
    unfold daysInMonth at hd4
    rw [if_pos hm2'] at hd4
    split_ifs at hd4 with hleap
    · have h4 : d.year % 4 = 0 := by
        unfold isLeapYear at hleap
        simp only [Bool.and_eq_true, beq_iff_eq] at hleap
        exact hleap.1
      rw [if_pos (by omega : shiftedYear d % 4 = 3)]
      omega
    · split_ifs <;> omega
  rw [dateToNumber_eq_Kfun, numberToDate_eq_ntdInt, Kfun_decomp d]
  have hB : ntdIntA (1461 * shiftedYear d / 4 + Mv (shiftedMonth d) + d.day +
      Bcorr (shiftedYear d - 4716) - 1524) =
      1461 * shiftedYear d / 4 + Mv (shiftedMonth d) + d.day - 1524 := by
    rcases hy with ⟨hy1, hy2⟩ | ⟨hy1, hy2⟩ | ⟨hy1, hy2⟩
    · refine ntdIntA_julian _ _ _ ?_ hm3 hm14 hd1 hub ?_
      · unfold shiftedYear; split_ifs <;> omega
      · unfold Bcorr shiftedYear; split_ifs <;> omega
    case inr.inr =>
      refine ntdIntA_julian _ _ _ (by omega) hm3 hm14 hd1 hub ?_
      unfold Bcorr
      rw [if_neg (by omega)]
      omega
    · refine ntdIntA_greg _ _ _ ?_ ?_ hm3 hm14 hd1 hub ?_ ?_
      · unfold shiftedYear; split_ifs <;> omega
      · intro h6298
        unfold shiftedYear at h6298; unfold shiftedMonth
        split_ifs at h6298 ⊢ <;> omega
      · intro h14
        have := hfeb h14
        split_ifs at this <;> omega
      · intro h14 h29
        have hm2' : d.month = 2 := hmo14feb h14
        have hYv : shiftedYear d = d.year + 4715 := hYfeb (by omega)
        unfold daysInMonth at hd4
        rw [if_pos hm2'] at hd4
        split_ifs at hd4 with hleap
        · unfold isLeapYear at hleap
          simp only [Bool.and_eq_true, beq_iff_eq, Bool.or_eq_true, bne_iff_ne,
            ne_eq] at hleap
          obtain ⟨hl1, hl2⟩ := hleap
          constructor
          · omega
          · rcases hl2 with hl2 | hl2
            · left; omega
            · right; omega
        · omega
  rw [roundtrip_int_core (shiftedYear d) (shiftedMonth d) d.day hm3 hm14 hd1 hub hub30 hfeb hB]
  clear hB hfeb hub30 hub hd1 hd4 hm3 hm14 hYfeb hYmar hmo14feb hy
  unfold shiftedYear shiftedMonth
  obtain ⟨yr, mn, dy⟩ := d
  simp only at hm1 hm2 ⊢
  rw [DateType.mk.injEq]
  split_ifs <;> omega

theorem C1_roundtrip_amended_witness :
    ValidDate ⟨-44, 3, 15⟩ ∧
      (((-4000 : ℤ) ≤ -44 ∧ (-44 : ℤ) ≤ -1) ∨ ((1583 : ℤ) ≤ -44 ∧ (-44 : ℤ) ≤ 4000) ∨
        ((200 : ℤ) ≤ shiftedYear ⟨-44, 3, 15⟩ - 4716 ∧
          shiftedYear ⟨-44, 3, 15⟩ - 4716 ≤ 299)) ∧
      numberToDate (dateToNumber ⟨-44, 3, 15⟩) = ⟨-44, 3, 15⟩ :=
  ⟨by decide, by decide,
    C1_roundtrip_amended ⟨-44, 3, 15⟩ (by decide) (by decide)⟩

/-! ### C2: strict monotonicity of `dateToNumber` -/

lemma isLeapYear_iff (y : ℤ) :
    isLeapYear y = true ↔ (y % 4 = 0 ∧ (y % 100 ≠ 0 ∨ y % 400 = 0)) := by
  unfold isLeapYear
  simp only [Bool.and_eq_true, beq_iff_eq, Bool.or_eq_true, bne_iff_ne, ne_eq,
    decide_eq_true_eq]

/-- One year of the integer Julian Day Number advances by at least 365 days
(independent of the sign of the year; at the year-0 boundary the correction
switch makes the step larger, never smaller). -/
lemma Gstep_plain (Y : ℤ) : Gfun Y + 365 ≤ Gfun (Y + 1) := by
  have h1 : 1461 * Y / 4 + 365 ≤ 1461 * (Y + 1) / 4 := by omega
  have h2 : Y % 4 = 3 → 1461 * Y / 4 + 366 ≤ 1461 * (Y + 1) / 4 := by omega
  have h3 : (Y - 4716) / 100 ≤ (Y - 4715) / 100 := by omega
  have h4 : (Y - 4715) / 100 ≤ (Y - 4716) / 100 + 1 := by omega
  have h5 : (Y - 4715) / 100 = (Y - 4716) / 100 + 1 → Y % 4 = 3 := by omega
  have h6 : (Y - 4716) / 100 / 4 ≤ (Y - 4715) / 100 / 4 := by omega
  have h7 : (Y - 4715) / 100 / 4 ≤ (Y - 4716) / 100 / 4 + 1 := by omega
  unfold Gfun Bcorr
  rw [show Y + 1 - 4716 = Y - 4715 from by ring]
  split_ifs <;> omega

/-- When the year containing the stepped-over February (`Y - 4715`) is a
Gregorian leap year, the year step is at least 366. -/
lemma Gstep_leap (Y : ℤ) (h4 : (Y - 4715) % 4 = 0)
    (hcent : (Y - 4715) % 100 ≠ 0 ∨ (Y - 4715) % 400 = 0) :
    Gfun Y + 366 ≤ Gfun (Y + 1) := by
  have h2 : 1461 * Y / 4 + 366 ≤ 1461 * (Y + 1) / 4 := by omega
  have h3 : (Y - 4716) / 100 ≤ (Y - 4715) / 100 := by omega
  have h4 : (Y - 4715) / 100 ≤ (Y - 4716) / 100 + 1 := by omega
  have h5 : (Y - 4715) / 100 = (Y - 4716) / 100 + 1 → (Y - 4715) % 100 = 0 := by omega
  have h6 : (Y - 4716) / 100 / 4 ≤ (Y - 4715) / 100 / 4 := by omega
  have h7 : (Y - 4715) % 400 = 0 → (Y - 4715) % 100 = 0 →
      (Y - 4715) / 100 / 4 = (Y - 4716) / 100 / 4 + 1 := by omega
  unfold Gfun Bcorr
  rw [show Y + 1 - 4716 = Y - 4715 from by ring]
  split_ifs <;> omega

lemma Gmono (Y1 Y2 : ℤ) (h : Y1 ≤ Y2) : Gfun Y1 ≤ Gfun Y2 :=
  @Int.le_induction (fun n => Gfun Y1 ≤ Gfun n) Y1 (le_refl _)
    (fun n _ ih => ih.trans (by have := Gstep_plain n; omega)) Y2 h

/-- Within one shifted year, a later month/day pair has a strictly larger
`Mv + day` value, because the gaps of the `Mv` table are exactly the month
lengths. -/
lemma Mv_month_lt (mo1 mo2 d1 d2 : ℤ) (h3 : 3 ≤ mo1) (hlt : mo1 < mo2) (h14 : mo2 ≤ 14)
    (hd2 : 1 ≤ d2) (hub : d1 ≤ 31)
    (hub30 : mo1 = 4 ∨ mo1 = 6 ∨ mo1 = 9 ∨ mo1 = 11 → d1 ≤ 30) :
    Mv mo1 + d1 < Mv mo2 + d2 := by
  have h13 : mo1 ≤ 13 := by omega
  have hM1 : Mv mo1 = 306001 * (mo1 + 1) / 10000 := rfl
  have hM2 : Mv mo2 = 306001 * (mo2 + 1) / 10000 := rfl
  interval_cases mo1 <;> interval_cases mo2 <;> omega

/-- Strict growth of the integer Julian Day Number along the lexicographic
order of shifted components. -/
lemma Kcomp (Y1 mo1 d1 Y2 mo2 d2 : ℤ)
    (hm31 : 3 ≤ mo1) (hm141 : mo1 ≤ 14) (hd11 : 1 ≤ d1) (hub1 : d1 ≤ 31)
    (hub301 : mo1 = 4 ∨ mo1 = 6 ∨ mo1 = 9 ∨ mo1 = 11 → d1 ≤ 30)
    (hfeb1 : mo1 = 14 → d1 ≤ 28 +
      (if (Y1 - 4715) % 4 = 0 ∧ ((Y1 - 4715) % 100 ≠ 0 ∨ (Y1 - 4715) % 400 = 0)
        then 1 else 0))
    (hm32 : 3 ≤ mo2) (hm142 : mo2 ≤ 14) (hd12 : 1 ≤ d2)
    (hlex : Y1 < Y2 ∨ (Y1 = Y2 ∧ (mo1 < mo2 ∨ (mo1 = mo2 ∧ d1 < d2)))) :
    Gfun Y1 + Mv mo1 + d1 < Gfun Y2 + Mv mo2 + d2 := by
  have hM1 : Mv mo1 = 306001 * (mo1 + 1) / 10000 := rfl
  have hM2 : Mv mo2 = 306001 * (mo2 + 1) / 10000 := rfl
  rcases hlex with hY | ⟨hYeq, hmo⟩
  · -- different shifted years: step through Y1 + 1
    have hstep : Gfun Y1 + 365 +
        (if (Y1 - 4715) % 4 = 0 ∧ ((Y1 - 4715) % 100 ≠ 0 ∨ (Y1 - 4715) % 400 = 0)
          then 1 else 0) ≤ Gfun (Y1 + 1) := by
      split_ifs with hl
      · have := Gstep_leap Y1 hl.1 hl.2
        omega
      · have := Gstep_plain Y1
        omega
    have hmono : Gfun (Y1 + 1) ≤ Gfun Y2 := Gmono _ _ (by omega)
    have hcap : Mv mo1 + d1 ≤ 487 +
        (if (Y1 - 4715) % 4 = 0 ∧ ((Y1 - 4715) % 100 ≠ 0 ∨ (Y1 - 4715) % 400 = 0)
          then 1 else 0) := by
      by_cases h14 : mo1 = 14
      · have := hfeb1 h14
        subst h14
        split_ifs at * <;> omega
      · split_ifs <;> omega
    have hfloor : 122 ≤ Mv mo2 := by omega
    omega
  · subst hYeq
    rcases hmo with hmlt | ⟨hmeq, hdlt⟩
    · have := Mv_month_lt mo1 mo2 d1 d2 hm31 hmlt hm142 hd12 hub1 hub301
      omega
    · subst hmeq
      omega

/-- Chronological order on dates corresponds to lexicographic order on the
shifted components used by the Julian Day Number formula. -/
lemma chrono_shift (d1 d2 : DateType) (h11 : 1 ≤ d1.month) (h12 : d1.month ≤ 12)
    (h21 : 1 ≤ d2.month) (h22 : d2.month ≤ 12) (hc : chronoBefore d1 d2) :
    shiftedYear d1 < shiftedYear d2 ∨
      (shiftedYear d1 = shiftedYear d2 ∧
        (shiftedMonth d1 < shiftedMonth d2 ∨
          (shiftedMonth d1 = shiftedMonth d2 ∧ d1.day < d2.day))) := by
  unfold chronoBefore at hc
  unfold shiftedYear shiftedMonth
  split_ifs <;> omega

/-- C2: `dateToNumber` is strictly monotone: for all valid dates `d1`
chronologically before `d2`, `dateToNumber d1 < dateToNumber d2` — in
particular across the negative-to-nonnegative boundary where the Gregorian
correction term switches from 0 to `2 - A + ⌊A/4⌋`. -/
theorem C2_monotonicity (d1 d2 : DateType) (hv1 : ValidDate d1) (hv2 : ValidDate d2)
    (hc : chronoBefore d1 d2) : dateToNumber d1 < dateToNumber d2 := by
  obtain ⟨hm11, hm12, hd11, hd14⟩ := hv1
  obtain ⟨hm21, hm22, hd21, hd24⟩ := hv2
  have hK : Kfun d1 < Kfun d2 := by
    unfold Kfun
    have hm31 : 3 ≤ shiftedMonth d1 := by unfold shiftedMonth; split_ifs <;> omega
    have hm141 : shiftedMonth d1 ≤ 14 := by unfold shiftedMonth; split_ifs <;> omega
    have hm32 : 3 ≤ shiftedMonth d2 := by unfold shiftedMonth; split_ifs <;> omega
    have hm142 : shiftedMonth d2 ≤ 14 := by unfold shiftedMonth; split_ifs <;> omega
    have hub1 : d1.day ≤ 31 := by
      unfold daysInMonth at hd14; split_ifs at hd14 <;> omega
    have hub301 : shiftedMonth d1 = 4 ∨ shiftedMonth d1 = 6 ∨ shiftedMonth d1 = 9 ∨
        shiftedMonth d1 = 11 → d1.day ≤ 30 := by
      intro h
      unfold shiftedMonth at h
      unfold daysInMonth at hd14
      split_ifs at h hd14 <;> omega
    have hfeb1 : shiftedMonth d1 = 14 → d1.day ≤ 28 +
        (if (shiftedYear d1 - 4715) % 4 = 0 ∧
            ((shiftedYear d1 - 4715) % 100 ≠ 0 ∨ (shiftedYear d1 - 4715) % 400 = 0)
          then 1 else 0) := by
      intro h
      have hm2' : d1.month = 2 := by unfold shiftedMonth at h; split_ifs at h <;> omega
      have hYv : shiftedYear d1 = d1.year + 4715 := by
        unfold shiftedYear; rw [if_pos (by omega)]; ring
      unfold daysInMonth at hd14
      rw [if_pos hm2'] at hd14
      split_ifs at hd14 with hleap
      · rw [isLeapYear_iff] at hleap
        rw [if_pos (by constructor <;> [omega; (rcases hleap.2 with h2 | h2 <;>
          [left; right] <;> omega)])]
        omega
      · split_ifs <;> omega
    exact Kcomp (shiftedYear d1) (shiftedMonth d1) d1.day
      (shiftedYear d2) (shiftedMonth d2) d2.day
      hm31 hm141 hd11 hub1 hub301 hfeb1 hm32 hm142 hd21
      (chrono_shift d1 d2 hm11 hm12 hm21 hm22 hc)
  rw [dateToNumber_eq_Kfun, dateToNumber_eq_Kfun]
  have hq : ((Kfun d1 : ℤ) : ℚ) < ((Kfun d2 : ℤ) : ℚ) := by exact_mod_cast hK
  linarith

theorem C2_monotonicity_witness :
    ValidDate ⟨-1, 12, 31⟩ ∧ ValidDate ⟨1, 1, 1⟩ ∧
      chronoBefore ⟨-1, 12, 31⟩ ⟨1, 1, 1⟩ ∧
      dateToNumber ⟨-1, 12, 31⟩ < dateToNumber ⟨1, 1, 1⟩ :=
  ⟨by decide, by decide, by decide,
    C2_monotonicity ⟨-1, 12, 31⟩ ⟨1, 1, 1⟩ (by decide) (by decide) (by decide)⟩
